import Mathlib

/-!
Verification development for the `amt` dataset code
(`audio_understanding/datasets/guitarset.py` and
`audio_understanding/datasets/slakh2100.py`).

Python floats that hold timestamps and durations are modelled as rationals
(`ℚ`); Python `None` as `Option.none`; Python dicts with a fixed key set as
Lean structures.  External collaborators (the `audidata` library, `librosa`,
`pandas`, the `random` module, YAML/MIDI parsing) are not part of this
repository's sources; where a claim needs their behaviour they are either
taken as function parameters or modelled from the spec, as marked.
-/

namespace AMT

/-- Timestamps and durations (Python floats) are modelled as rationals. -/
abbrev Time := ℚ

/-- A note event as produced by MIDI parsing: onset/offset times, pitch,
velocity.  Mirrors the event records flowing through `clip_notes` and
`read_single_track_midi`. -/
structure Note where
  onset : Time
  offset : Time
  pitch : Nat
  velocity : Nat
deriving Repr, DecidableEq

/-- A sustain-pedal interval: like a note without pitch/velocity. -/
structure Pedal where
  onset : Time
  offset : Time
deriving Repr, DecidableEq

/-- Modelled from the spec: the external Event Clipper (`audidata`'s
`clip_notes`, absent from `src/`).  An event is kept iff its interval
clamped to `[start, start+duration)` has positive length
(`clamped_offset > clamped_onset`), and kept events are re-based to
window-relative time.  Generic in the event type through onset/offset
accessors and an updater, since the Python function is applied to both
note and pedal records. -/
def clipEvents (onset offset : α → Time) (upd : α → Time → Time → α)
    (events : List α) (start duration : Time) : List α :=
  events.filterMap (fun e =>
    let co := max (onset e) start
    let cf := min (offset e) (start + duration)
    if co < cf then some (upd e (co - start) (cf - start)) else none)

/-- `clip_notes` applied to a list of note events. -/
def clip_notes (notes : List Note) (start duration : Time) : List Note :=
  clipEvents Note.onset Note.offset
    (fun n a b => { n with onset := a, offset := b }) notes start duration

/-- `clip_notes` applied to a list of pedal events (the Python function is
duck-typed and the datasets call it on pedals as well). -/
def clipPedals (pedals : List Pedal) (start duration : Time) : List Pedal :=
  clipEvents Pedal.onset Pedal.offset
    (fun _ a b => Pedal.mk a b) pedals start duration

/-- Least onset among a list of notes, if any. -/
def minOnset (ns : List Note) : Option Time :=
  ns.foldr
    (fun n acc =>
      match acc with
      | none => some n.onset
      | some t => some (min n.onset t))
    none

/-- Modelled from the spec: the Sustain Extender (inside `audidata`'s
`read_single_track_midi`, absent from `src/`).  A note whose offset falls
strictly inside a pedal-down interval has its offset extended to that
interval's end, clamped to the onset of the next later note of the same
pitch when that onset comes earlier.  Only `offset` is rewritten. -/
def extendNotes : List Note → List Pedal → List Note
  | [], _ => []
  | n :: rest, pedals =>
    let newOffset :=
      match pedals.find? (fun p =>
          decide (p.onset < n.offset) && decide (n.offset < p.offset)) with
      | none => n.offset
      | some p =>
        match minOnset (rest.filter (fun m => m.pitch == n.pitch)) with
        | none => p.offset
        | some t => min t p.offset
    { n with offset := newOffset } :: extendNotes rest pedals

/-- Modelled from the spec: the external `read_single_track_midi`
(`audidata`, absent from `src/`).  MIDI parsing itself is external, so the
raw parsed note and pedal lists are taken as inputs; with
`extend_pedal = true` the Sustain Extender rewrites note offsets before the
pair is returned. -/
def read_single_track_midi (rawNotes : List Note) (rawPedals : List Pedal)
    (extendPedal : Bool) : List Note × List Pedal :=
  (if extendPedal then extendNotes rawNotes rawPedals else rawNotes, rawPedals)

/-- The arguments the external audio decoder (`audidata.io.audio.load`) is
called with; the decoded sample buffer is fully determined by them, so this
record stands for the audio samples in the embedding. -/
structure AudioRequest where
  path : String
  sr : ℚ
  offset : Time
  duration : Option Time
deriving Repr, DecidableEq

/-- Result of `GuitarSet.load_audio_data`: the `{audio, start_time,
duration}` dict. -/
structure GSAudioData where
  audio : AudioRequest
  start_time : Time
  duration : Time
deriving Repr, DecidableEq

/-- `GuitarSet.load_audio_data` (guitarset.py lines 100-117).  The crop
callable and the audio transform are external and passed as parameters;
`librosa.get_duration` is external and supplied as `audio_duration`.
When `self.crop` is falsy the window is `(0, audio_duration)`. -/
def GuitarSet.load_audio_data (crop : Option (Time → Time × Time))
    (transform : Option (AudioRequest → AudioRequest)) (sr : ℚ)
    (path : String) (audio_duration : Time) : GSAudioData :=
  let w : Time × Time :=
    match crop with
    | some c => c audio_duration
    | none => (0, audio_duration)
  let audio0 : AudioRequest := ⟨path, sr, w.1, some w.2⟩
  let audio :=
    match transform with
    | some f => f audio0
    | none => audio0
  ⟨audio, w.1, w.2⟩

/-- Result of `Slakh2100.load_audio`: the `{audio, start_time, duration}`
dict. -/
structure SAudioData where
  audio : AudioRequest
  start_time : Time
  duration : Time
deriving Repr, DecidableEq

/-- `Slakh2100.load_audio` (slakh2100.py lines 152-175).  With cropping
disabled `clip_duration` stays Python `None`; the reported duration is
`clip_duration if clip_duration else audio_duration`, where both `None` and
`0.0` are falsy. -/
def Slakh2100.load_audio (crop : Option (Time → Time × Time))
    (transform : Option (AudioRequest → AudioRequest)) (sr : ℚ)
    (path : String) (audio_duration : Time) : SAudioData :=
  let w : Time × Option Time :=
    match crop with
    | some c => ((c audio_duration).1, some (c audio_duration).2)
    | none => (0, none)
  let audio0 : AudioRequest := ⟨path, sr, w.1, w.2⟩
  let reported : Time :=
    match w.2 with
    | none => audio_duration
    | some d => if d = 0 then audio_duration else d
  let audio :=
    match transform with
    | some f => f audio0
    | none => audio0
  ⟨audio, w.1, reported⟩

/-- The five fixed transcription prompts of `GuitarSet.load_question_data`
(guitarset.py lines 121-127). -/
def guitarSetQuestions : List String :=
  ["Music transcription.",
   "Convert audio music into MIDI data format.",
   "Transcribe music recordings into MIDI note sequences.",
   "Automatically generate MIDI file from audio music.",
   "Extract music elements and convert to MIDI notes."]

/-- The five fixed transcription prompts of `Slakh2100.load_question`
(slakh2100.py lines 179-185); textually the same list. -/
def slakhQuestions : List String :=
  ["Music transcription.",
   "Convert audio music into MIDI data format.",
   "Transcribe music recordings into MIDI note sequences.",
   "Automatically generate MIDI file from audio music.",
   "Extract music elements and convert to MIDI notes."]

/-- Modelled from the spec: the global random choice used for the task
prompt (`random.choice` on the process-global `random` module state, which
the spec calls a simple external call returning a value).  The global state
is made explicit as a natural number; the choice picks the element indexed
by the state modulo the list length. -/
def randomChoice (g : Nat) (xs : List String) : String :=
  xs.getD (g % xs.length) ""

/-- `GuitarSet.load_question_data` (guitarset.py lines 119-132): a
`random.choice` over the five prompts, drawn from the global random
state `g`. -/
def GuitarSet.load_question_data (g : Nat) : String :=
  randomChoice g guitarSetQuestions

/-- `Slakh2100.load_question` (slakh2100.py lines 177-190): identical to
the GuitarSet version. -/
def Slakh2100.load_question (g : Nat) : String :=
  randomChoice g slakhQuestions

/-- The target dict built by `GuitarSet.load_target_data`
(guitarset.py lines 146-152). -/
structure GSTarget where
  note : List Note
  pedal : List Pedal
  start_time : Time
  duration : Time
  midi_path : String
deriving Repr, DecidableEq

/-- `GuitarSet.load_target_data` (guitarset.py lines 134-158): reads the
single-track MIDI with the configured `extend_pedal`, clips notes and
pedals to `[start_time, start_time+duration)`, packs the target dict, then
applies the optional external target transform.  The raw parsed events are
inputs (MIDI parsing is external). -/
def GuitarSet.load_target_data (extendPedal : Bool)
    (targetTransform : Option (GSTarget → GSTarget))
    (rawNotes : List Note) (rawPedals : List Pedal)
    (midi_path : String) (start_time duration : Time) : GSTarget :=
  let parsed := read_single_track_midi rawNotes rawPedals extendPedal
  let notes := clip_notes parsed.1 start_time duration
  let pedals := clipPedals parsed.2 start_time duration
  let target : GSTarget := ⟨notes, pedals, start_time, duration, midi_path⟩
  match targetTransform with
  | some f => f target
  | none => target

/-- One entry of the Slakh2100 `metadata.yaml` stems table, as read by
`Slakh2100.load_target_data` (slakh2100.py lines 214-222). -/
structure Stem where
  name : String
  midi_saved : Bool
  inst_class : String
  is_drum : Bool
  plugin_name : String
  program_num : Nat
deriving Repr, DecidableEq

/-- One track dict of `Slakh2100.load_target_data`
(slakh2100.py lines 230-238). -/
structure STrack where
  track_name : String
  inst_class : String
  is_drum : Bool
  plugin_name : String
  program_num : Nat
  note : List Note
  pedal : List Pedal
deriving Repr, DecidableEq

/-- The data dict of `Slakh2100.load_target_data`
(slakh2100.py lines 206-212). -/
structure STargetData where
  start_time : Time
  clip_duration : Time
  beat : List Time
  downbeat : List Time
  tracks : List STrack
deriving Repr, DecidableEq

/-- The per-stem MIDI path `Path(midis_dir, "{}.mid".format(stem_name))`
(slakh2100.py line 224). -/
def stemMidiPath (midis_dir stem_name : String) : String :=
  midis_dir ++ "/" ++ stem_name ++ ".mid"

/-- The track dict appended for one saved stem (slakh2100.py lines
219-238): the stem's metadata fields next to the notes and pedals parsed
from that stem's own MIDI file. -/
def mkTrack (extendPedal : Bool) (parse : String → List Note × List Pedal)
    (midis_dir : String) (s : Stem) : STrack :=
  let raw := parse (stemMidiPath midis_dir s.name)
  let parsed := read_single_track_midi raw.1 raw.2 extendPedal
  ⟨s.name, s.inst_class, s.is_drum, s.plugin_name, s.program_num,
   parsed.1, parsed.2⟩

/-- The stem loop of `Slakh2100.load_target_data` (slakh2100.py lines
214-240): iterate the stems in order, `continue` past any stem whose
`midi_saved` flag is false, and append a track dict for each remaining
stem. -/
def slakhTracksLoop (extendPedal : Bool)
    (parse : String → List Note × List Pedal) (midis_dir : String) :
    List Stem → List STrack
  | [] => []
  | s :: rest =>
    if s.midi_saved then
      mkTrack extendPedal parse midis_dir s ::
        slakhTracksLoop extendPedal parse midis_dir rest
    else
      slakhTracksLoop extendPedal parse midis_dir rest

/-- `Slakh2100.load_target_data` (slakh2100.py lines 192-245): reads beats
and downbeats from the mix MIDI (external, passed in), runs the stem loop,
and applies the optional external target transform to the assembled data
dict.  No clipping of events to the window happens here; the window
(`start_time`, `clip_duration`) is stored alongside the raw events. -/
def Slakh2100.load_target_data
    (targetTransform : Option (STargetData → STargetData))
    (extendPedal : Bool) (stems : List Stem)
    (parse : String → List Note × List Pedal)
    (beats downbeats : List Time) (midis_dir : String)
    (start_time clip_duration : Time) : STargetData :=
  let data : STargetData :=
    ⟨start_time, clip_duration, beats, downbeats,
     slakhTracksLoop extendPedal parse midis_dir stems⟩
  match targetTransform with
  | some f => f data
  | none => data

/-- One row of the GuitarSet `metadata.csv` table: the two columns the
code reads (`File Path` and `Midi_file_path`). -/
structure GSRow where
  filePath : String
  midiFilePath : String
deriving Repr, DecidableEq

/-- A pandas DataFrame over those rows. -/
abbrev GSDF := List GSRow

/-- Modelled from the spec's external metadata-source interface: the
string representation `str(series)` that pandas produces for a column,
`index`-then-value lines for a non-empty series and a `Series([], ...)`
header for an empty one.  The code applies `str(...)` to the whole `File
Path` column (guitarset.py lines 76 and 78). -/
def seriesStr (vals : List String) : String :=
  if vals.isEmpty then
    "Series([], Name: File Path, dtype: object)"
  else
    String.intercalate "\x0a"
      ((vals.enum).map (fun p => toString p.1 ++ "    " ++ p.2))
      ++ "\x0aName: File Path, dtype: object"

/-- Modelled from the spec's external metadata-source interface: pandas
`df[key]` with a plain Python bool key performs a column lookup by label.
This table's column labels are the CSV header strings (`File Path`,
`Midi_file_path`, ...), never a boolean, so the lookup raises `KeyError`
for either boolean key. -/
def dfSelectBool (_df : GSDF) (_b : Bool) : Except String GSDF :=
  .error "KeyError"

/-- The `meta_dict` of `GuitarSet.load_meta` (guitarset.py lines 90-96). -/
structure GSMeta where
  audio_name : List String
  audio_path : List String
  midi_name : List String
  midi_path : List String
  duration : List Time
deriving Repr, DecidableEq

/-- The dict-construction tail of `GuitarSet.load_meta` (guitarset.py
lines 80-98): column values out of the (filtered) table, paths under
`root/data`, and per-file durations from the external
`librosa.get_duration`, supplied as `durationOf`. -/
def GuitarSet.buildMetaDict (root : String) (durationOf : String → Time)
    (df : GSDF) : GSMeta :=
  let audio_names := df.map (·.filePath)
  let midi_names := df.map (·.midiFilePath)
  let audio_paths := audio_names.map (fun n => root ++ "/data/" ++ n)
  let midi_paths := midi_names.map (fun n => root ++ "/data/" ++ n)
  let durations := audio_paths.map durationOf
  ⟨audio_names, audio_paths, midi_names, midi_paths, durations⟩

/-- `GuitarSet.load_meta` (guitarset.py lines 68-98).  The split filter
evaluates `str(df["File Path"]).startswith("05")` — a single bool over the
whole column's string representation, not a per-row mask — and then
subscripts the frame with that bool (or its negation), which pandas
resolves as a column-label lookup and which therefore raises `KeyError`.
Only if that subscript succeeded would the meta dict be built. -/
def GuitarSet.load_meta (split root : String) (durationOf : String → Time)
    (df : GSDF) : Except String GSMeta :=
  let b := (seriesStr (df.map (·.filePath))).startsWith "05"
  let sel := if split = "test" then dfSelectBool df b else dfSelectBool df (!b)
  match sel with
  | .error e => .error e
  | .ok df2 => .ok (GuitarSet.buildMetaDict root durationOf df2)

/-- `GuitarSet.__len__` (guitarset.py lines 63-65):
`len(self.meta_dict["audio_name"])`. -/
def GuitarSet.len (m : GSMeta) : Nat :=
  m.audio_name.length

/-- The `full_data` dict that `GuitarSet.__getitem__` would return: the
identification fields merged with the audio data (guitarset.py lines
54-61).  Note that no question and no target fields exist in it. -/
structure GSFullData where
  dataset_name : String
  audio_path : String
  midi_path : String
  audio : AudioRequest
  start_time : Time
  duration : Time
deriving Repr, DecidableEq

/-- `GuitarSet.__getitem__` (guitarset.py lines 49-61): looks up the paths
for the index, builds `full_data`, merges in the audio data — and then the
function body ends.  There is no `return` statement, `load_question_data`
and `load_target_data` are never called, so the Python call evaluates to
`None`, modelled as `Option.none`. -/
def GuitarSet.getitem (meta : GSMeta) (crop : Option (Time → Time × Time))
    (transform : Option (AudioRequest → AudioRequest)) (sr : ℚ)
    (durationOf : String → Time) (index : Nat) : Option GSFullData :=
  let audio_path := meta.audio_path.getD index ""
  let midi_path := meta.midi_path.getD index ""
  let audio_data :=
    GuitarSet.load_audio_data crop transform sr audio_path
      (durationOf audio_path)
  let _full_data : GSFullData :=
    ⟨"GuitarSet", audio_path, midi_path, audio_data.audio,
     audio_data.start_time, audio_data.duration⟩
  none

/-- The `full_data` dict returned by `Slakh2100.__getitem__` (slakh2100.py
lines 88-120).  The target fields (`clip_duration`, `beat`, `downbeat`,
`tracks`) are merged in only when `load_target` is true, hence optional. -/
structure SFullData where
  dataset_name : String
  audio_path : String
  audio : AudioRequest
  start_time : Time
  duration : Time
  question : String
  clip_duration : Option Time
  beat : Option (List Time)
  downbeat : Option (List Time)
  tracks : Option (List STrack)
deriving Repr, DecidableEq

/-- `Slakh2100.__getitem__` (slakh2100.py lines 88-120): builds the item
paths, loads audio, draws the question from the global random state `g`,
and, when `load_target` is set, merges in the target data computed with the
window the audio loader reported. -/
def Slakh2100.getitem (root split : String) (audio_names : List String)
    (crop : Option (Time → Time × Time))
    (transform : Option (AudioRequest → AudioRequest)) (sr : ℚ)
    (durationOf : String → Time) (stemsOf : String → List Stem)
    (beatsOf : String → List Time × List Time)
    (parse : String → List Note × List Pedal)
    (loadTarget extendPedal : Bool)
    (targetTransform : Option (STargetData → STargetData))
    (g : Nat) (index : Nat) : SFullData :=
  let itemDir := root ++ "/" ++ split ++ "/" ++ audio_names.getD index ""
  let audio_path := itemDir ++ "/mix.flac"
  let meta_yaml := itemDir ++ "/metadata.yaml"
  let mix_midi_path := itemDir ++ "/all_src.mid"
  let midis_dir := itemDir ++ "/MIDI"
  let audio_data :=
    Slakh2100.load_audio crop transform sr audio_path (durationOf audio_path)
  let question := Slakh2100.load_question g
  if loadTarget then
    let bd := beatsOf mix_midi_path
    let td :=
      Slakh2100.load_target_data targetTransform extendPedal
        (stemsOf meta_yaml) parse bd.1 bd.2 midis_dir
        audio_data.start_time audio_data.duration
    ⟨"Slakh2100", audio_path, audio_data.audio, td.start_time,
     audio_data.duration, question, some td.clip_duration, some td.beat,
     some td.downbeat, some td.tracks⟩
  else
    ⟨"Slakh2100", audio_path, audio_data.audio, audio_data.start_time,
     audio_data.duration, question, none, none, none, none⟩

/- Helper lemmas (shared; not tied to a single claim). -/

/-- The stem loop keeps, in order, exactly the stems whose `midi_saved`
flag is set, each turned into its track dict. -/
theorem slakhTracksLoop_eq_filter_map (ep : Bool)
    (parse : String → List Note × List Pedal) (dir : String)
    (stems : List Stem) :
    slakhTracksLoop ep parse dir stems =
      (stems.filter (fun st => st.midi_saved)).map (mkTrack ep parse dir) := by
  induction stems with
  | nil => rfl
  | cons s rest ih =>
    by_cases h : s.midi_saved <;>
      simp [slakhTracksLoop, List.filter_cons, h, ih]

/-- An in-range `getD` lookup returns an element of the list. -/
theorem getD_mem_of_lt (xs : List String) (n : Nat) (h : n < xs.length) :
    xs.getD n "" ∈ xs := by
  induction xs generalizing n with
  | nil => simp at h
  | cons a t ih =>
    cases n with
    | zero => simp [List.getD]
    | succ m =>
      have hm : m < t.length := by simpa using h
      simpa [List.getD] using Or.inr (by simpa [List.getD] using ih m hm)

/- Claim theorems. -/

/-- C1: `Slakh2100.__getitem__` with `load_target = True` does return a
record carrying the audio request, the window, the question and the target
tracks; but `GuitarSet.__getitem__` ends without a `return` statement and
never calls `load_question_data` or `load_target_data`, so on a valid
index of a populated instance it evaluates to Python `None` instead of a
complete Example record. -/
theorem guitarset_getitem_returns_none :
    GuitarSet.getitem
      ⟨["00_a.wav"], ["r/data/00_a.wav"], ["00_a.mid"], ["r/data/00_a.mid"],
       [30]⟩ none none 44100 (fun _ => 30) 0 = none ∧
    (Slakh2100.getitem "r" "train" ["Track00001"] none none 44100
      (fun _ => 30) (fun _ => [⟨"S00", true, "Guitar", false, "P", 24⟩])
      (fun _ => ([], [])) (fun _ => ([], [])) true true none 0 0).tracks =
      some [⟨"S00", "Guitar", false, "P", 24, [], []⟩] :=
  ⟨rfl, rfl⟩

/-- C2 counterexample: in `Slakh2100.load_target_data` the note placed in
the target's track list is the raw parsed note `{onset 20, offset 21}`,
even though the Event Clipper at the chosen window `[10, 15)` would have
removed it — so the events are not passed through the clipper before the
target transform. -/
theorem slakh_target_unclipped_cex :
    ((Slakh2100.load_target_data none true
        [⟨"S00", true, "Guitar", false, "P", 24⟩]
        (fun _ => ([⟨20, 21, 60, 100⟩], [])) [] [] "MIDI" 10 5).tracks.map
      STrack.note) = [[⟨20, 21, 60, 100⟩]] ∧
    clip_notes [⟨20, 21, 60, 100⟩] 10 5 = [] := by
  exact ⟨rfl, by norm_num [clip_notes, clipEvents]⟩

/-- C2 (amended): only `GuitarSet.load_target_data` passes the events
through the Event Clipper with the window `[start_time,
start_time+duration)` before the rasterizing target transform;
`Slakh2100.load_target_data` performs no clipping — each track holds the
raw (optionally pedal-extended) parsed events, and the window is merely
recorded alongside them in the data handed to the target transform. -/
theorem clip_before_transform_amended :
    (∀ (ep : Bool) (rn : List Note) (rp : List Pedal) (p : String)
        (s d : Time),
      (GuitarSet.load_target_data ep none rn rp p s d).note =
        clip_notes (read_single_track_midi rn rp ep).1 s d ∧
      (GuitarSet.load_target_data ep none rn rp p s d).pedal =
        clipPedals (read_single_track_midi rn rp ep).2 s d) ∧
    (∀ (ep : Bool) (stems : List Stem)
        (parse : String → List Note × List Pedal)
        (beats dbs : List Time) (dir : String) (s d : Time),
      (Slakh2100.load_target_data none ep stems parse beats dbs dir
          s d).tracks =
        (stems.filter (fun st => st.midi_saved)).map (mkTrack ep parse dir) ∧
      (Slakh2100.load_target_data none ep stems parse beats dbs dir
          s d).start_time = s ∧
      (Slakh2100.load_target_data none ep stems parse beats dbs dir
          s d).clip_duration = d) := by
  refine ⟨fun ep rn rp p s d => ⟨rfl, rfl⟩,
          fun ep stems parse beats dbs dir s d => ⟨?_, rfl, rfl⟩⟩
  simpa [Slakh2100.load_target_data] using
    slakhTracksLoop_eq_filter_map ep parse dir stems

/-- C3: with cropping disabled (`self.crop` falsy), both
`GuitarSet.load_audio_data` and `Slakh2100.load_audio` report
`start_time = 0` and a duration equal to the full audio duration. -/
theorem no_crop_full_window
    (transform : Option (AudioRequest → AudioRequest)) (sr : ℚ)
    (path : String) (d : Time) :
    (GuitarSet.load_audio_data none transform sr path d).start_time = 0 ∧
    (GuitarSet.load_audio_data none transform sr path d).duration = d ∧
    (Slakh2100.load_audio none transform sr path d).start_time = 0 ∧
    (Slakh2100.load_audio none transform sr path d).duration = d :=
  ⟨rfl, rfl, rfl, rfl⟩

/-- C4: in `GuitarSet.load_target_data` with `extend_pedal` set, the notes
in the target are exactly the pedal-extended notes clipped afterwards to
the window; and the order matters — on the spec's example note
`{onset 0, offset 1, pitch 60}` with pedal `[0.5, 3]` and window `[2, 3)`,
extend-then-clip keeps the (rebased) note while clip-then-extend would
discard it. -/
theorem extend_before_clip :
    (∀ (rn : List Note) (rp : List Pedal) (p : String) (s d : Time),
      (GuitarSet.load_target_data true none rn rp p s d).note =
        clip_notes (extendNotes rn rp) s d) ∧
    clip_notes (extendNotes [⟨0, 1, 60, 100⟩] [⟨1/2, 3⟩]) 2 1 =
      [⟨0, 1, 60, 100⟩] ∧
    extendNotes (clip_notes [⟨0, 1, 60, 100⟩] 2 1)
      (clipPedals [⟨1/2, 3⟩] 2 1) = [] := by
  refine ⟨fun rn rp p s d => rfl, ?_, ?_⟩ <;>
    norm_num [clip_notes, clipPedals, clipEvents, extendNotes, minOnset,
      List.filterMap_cons, max_def, min_def]

/-- C5: a stem whose metadata marks the MIDI as not saved is skipped —
the tracks list of `Slakh2100.load_target_data` is exactly the saved
stems, in order, each processed into its track; the computation is total,
so the example does not fail because of the missing stem. -/
theorem missing_stem_skipped (ep : Bool) (stems : List Stem)
    (parse : String → List Note × List Pedal) (beats dbs : List Time)
    (dir : String) (s d : Time) :
    (Slakh2100.load_target_data none ep stems parse beats dbs dir
        s d).tracks =
      (stems.filter (fun st => st.midi_saved)).map (mkTrack ep parse dir) := by
  simpa [Slakh2100.load_target_data] using
    slakhTracksLoop_eq_filter_map ep parse dir stems

/- Concrete example inputs used by witnesses. -/

/-- A sample saved stem. -/
def exStem : Stem := ⟨"S00", true, "Guitar", false, "P", 24⟩

/-- The track dict the stem loop builds from `exStem` under `exParse`. -/
def exTrack : STrack := ⟨"S00", "Guitar", false, "P", 24, [], []⟩

/-- A sample external MIDI parse returning no events. -/
def exParse : String → List Note × List Pedal := fun _ => ([], [])

/-- A sample one-row metadata table. -/
def exDF : GSDF := [⟨"00_a.wav", "00_a.mid"⟩]

/-- C6 counterexample: two `Slakh2100.__getitem__` calls with the same
index and the same inputs, differing only in the state of the process
global random module, return different examples (the question prompt
differs), so the example is not a function of an injected random source
alone. -/
theorem question_global_state_cex :
    Slakh2100.getitem "r" "train" ["T1"] none none 44100 (fun _ => 30)
      (fun _ => []) (fun _ => ([], [])) (fun _ => ([], [])) false true none
      0 0 ≠
    Slakh2100.getitem "r" "train" ["T1"] none none 44100 (fun _ => 30)
      (fun _ => []) (fun _ => ([], [])) (fun _ => ([], [])) false true none
      1 0 := by
  intro h
  exact absurd (congrArg SFullData.question h) (by decide)

/-- C6 (amended): the prompt choice is drawn from the process-global
random state, not from an injected source — so example construction is
deterministic only once the global random state is fixed: whenever two
global states agree modulo the number of prompts, both question loaders
return the same prompt. -/
theorem question_determined_by_global_state (g₁ g₂ : Nat)
    (h : g₁ % 5 = g₂ % 5) :
    GuitarSet.load_question_data g₁ = GuitarSet.load_question_data g₂ ∧
    Slakh2100.load_question g₁ = Slakh2100.load_question g₂ := by
  refine ⟨?_, ?_⟩
  · simp only [GuitarSet.load_question_data, randomChoice]
    rw [show guitarSetQuestions.length = 5 from rfl, h]
  · simp only [Slakh2100.load_question, randomChoice]
    rw [show slakhQuestions.length = 5 from rfl, h]

/-- C6 witness: the amended statement at the concrete global states 2
and 7. -/
theorem question_determined_by_global_state_witness :
    2 % 5 = 7 % 5 ∧
    (GuitarSet.load_question_data 2 = GuitarSet.load_question_data 7 ∧
     Slakh2100.load_question 2 = Slakh2100.load_question 7) :=
  ⟨by decide, question_determined_by_global_state 2 7 (by decide)⟩

/-- C7: every track dict in the output of `Slakh2100.load_target_data`
comes from one saved stem and carries that stem's metadata (name,
instrument class, drum flag, plugin name, program number) alongside the
note and pedal events parsed from that stem's own MIDI file. -/
theorem track_metadata_preserved (ep : Bool) (stems : List Stem)
    (parse : String → List Note × List Pedal) (beats dbs : List Time)
    (dir : String) (s d : Time) :
    ∀ t ∈ (Slakh2100.load_target_data none ep stems parse beats dbs dir
        s d).tracks,
      ∃ st ∈ stems, st.midi_saved = true ∧
        t.track_name = st.name ∧ t.inst_class = st.inst_class ∧
        t.is_drum = st.is_drum ∧ t.plugin_name = st.plugin_name ∧
        t.program_num = st.program_num ∧
        t.note = (read_single_track_midi
            (parse (stemMidiPath dir st.name)).1
            (parse (stemMidiPath dir st.name)).2 ep).1 ∧
        t.pedal = (parse (stemMidiPath dir st.name)).2 := by
  intro t ht
  have htr :
      (Slakh2100.load_target_data none ep stems parse beats dbs dir
          s d).tracks =
        (stems.filter (fun st => st.midi_saved)).map (mkTrack ep parse dir) := by
    simpa [Slakh2100.load_target_data] using
      slakhTracksLoop_eq_filter_map ep parse dir stems
  rw [htr] at ht
  obtain ⟨st, hstf, rfl⟩ := List.mem_map.mp ht
  obtain ⟨hmem, hsv⟩ := List.mem_filter.mp hstf
  exact ⟨st, hmem, by simpa using hsv, rfl, rfl, rfl, rfl, rfl, rfl, rfl⟩

/-- C7 witness: the statement applied to a concrete one-stem item whose
track is `exTrack`. -/
theorem track_metadata_preserved_witness :
    ∃ st ∈ [exStem], st.midi_saved = true ∧
      exTrack.track_name = st.name ∧ exTrack.inst_class = st.inst_class ∧
      exTrack.is_drum = st.is_drum ∧ exTrack.plugin_name = st.plugin_name ∧
      exTrack.program_num = st.program_num ∧
      exTrack.note = (read_single_track_midi
          (exParse (stemMidiPath "MIDI" st.name)).1
          (exParse (stemMidiPath "MIDI" st.name)).2 true).1 ∧
      exTrack.pedal = (exParse (stemMidiPath "MIDI" st.name)).2 :=
  track_metadata_preserved true [exStem] exParse [] [] "MIDI" 10 5 exTrack
    (by decide)

/-- C8: on a two-row table with file paths `00_a.wav` and `05_b.wav`,
`GuitarSet.load_meta` raises `KeyError` for the test split and for the
train split alike — the split filter stringifies the whole column, takes a
single boolean, and uses it as a column key — instead of keeping exactly
the rows whose `File Path` starts (or does not start) with `05`. -/
theorem load_meta_raises_keyerror :
    GuitarSet.load_meta "test" "r" (fun _ => 30)
      [⟨"00_a.wav", "00_a.mid"⟩, ⟨"05_b.wav", "05_b.mid"⟩] =
      .error "KeyError" ∧
    GuitarSet.load_meta "train" "r" (fun _ => 30)
      [⟨"00_a.wav", "00_a.mid"⟩, ⟨"05_b.wav", "05_b.mid"⟩] =
      .error "KeyError" :=
  ⟨rfl, rfl⟩

/-- C9: in the meta dict built from any (filtered) table, the five lists
all have the length of `audio_name` — the list `__len__` measures — so for
every index below `__len__()` the `audio_path` and `midi_path` entries
used by `__getitem__` exist. -/
theorem meta_dict_lengths_agree (root : String) (durationOf : String → Time)
    (df : GSDF) (i : Nat)
    (h : i < GuitarSet.len (GuitarSet.buildMetaDict root durationOf df)) :
    (GuitarSet.buildMetaDict root durationOf df).audio_path.length =
      (GuitarSet.buildMetaDict root durationOf df).audio_name.length ∧
    (GuitarSet.buildMetaDict root durationOf df).midi_name.length =
      (GuitarSet.buildMetaDict root durationOf df).audio_name.length ∧
    (GuitarSet.buildMetaDict root durationOf df).midi_path.length =
      (GuitarSet.buildMetaDict root durationOf df).audio_name.length ∧
    (GuitarSet.buildMetaDict root durationOf df).duration.length =
      (GuitarSet.buildMetaDict root durationOf df).audio_name.length ∧
    i < (GuitarSet.buildMetaDict root durationOf df).audio_path.length ∧
    i < (GuitarSet.buildMetaDict root durationOf df).midi_path.length := by
  simp only [GuitarSet.buildMetaDict, GuitarSet.len, List.length_map] at *
  exact ⟨trivial, trivial, trivial, trivial, h, h⟩

/-- C9 witness: the statement at a concrete one-row table and index 0. -/
theorem meta_dict_lengths_agree_witness :
    0 < GuitarSet.len (GuitarSet.buildMetaDict "r" (fun _ => 30) exDF) ∧
    ((GuitarSet.buildMetaDict "r" (fun _ => 30) exDF).audio_path.length =
      (GuitarSet.buildMetaDict "r" (fun _ => 30) exDF).audio_name.length ∧
    (GuitarSet.buildMetaDict "r" (fun _ => 30) exDF).midi_name.length =
      (GuitarSet.buildMetaDict "r" (fun _ => 30) exDF).audio_name.length ∧
    (GuitarSet.buildMetaDict "r" (fun _ => 30) exDF).midi_path.length =
      (GuitarSet.buildMetaDict "r" (fun _ => 30) exDF).audio_name.length ∧
    (GuitarSet.buildMetaDict "r" (fun _ => 30) exDF).duration.length =
      (GuitarSet.buildMetaDict "r" (fun _ => 30) exDF).audio_name.length ∧
    0 < (GuitarSet.buildMetaDict "r" (fun _ => 30) exDF).audio_path.length ∧
    0 < (GuitarSet.buildMetaDict "r" (fun _ => 30) exDF).midi_path.length) :=
  ⟨by decide, meta_dict_lengths_agree "r" (fun _ => 30) exDF 0 (by decide)⟩

/-- C10: for every global random state, the question returned by
`GuitarSet.load_question_data` and by `Slakh2100.load_question` is one of
the five fixed transcription prompt strings. -/
theorem question_prompt_fixed (g : Nat) :
    GuitarSet.load_question_data g ∈
      (["Music transcription.",
        "Convert audio music into MIDI data format.",
        "Transcribe music recordings into MIDI note sequences.",
        "Automatically generate MIDI file from audio music.",
        "Extract music elements and convert to MIDI notes."] :
        List String) ∧
    Slakh2100.load_question g ∈
      (["Music transcription.",
        "Convert audio music into MIDI data format.",
        "Transcribe music recordings into MIDI note sequences.",
        "Automatically generate MIDI file from audio music.",
        "Extract music elements and convert to MIDI notes."] :
        List String) :=
  ⟨getD_mem_of_lt guitarSetQuestions (g % guitarSetQuestions.length)
      (Nat.mod_lt g (by decide)),
   getD_mem_of_lt slakhQuestions (g % slakhQuestions.length)
      (Nat.mod_lt g (by decide))⟩

end AMT
